import Mathlib

/-
Verification of the risk-management core of the MBS portfolio risk
management system, embedded shallowly from
`project/risk_management/views.py`.

Numbers carried in JSON payloads are modelled as rationals (ℚ); the
record store is modelled as explicit lists of records threaded through
each operation; a missing JSON key is modelled as an `Option` field whose
absence raises an unhandled `keyError` fault, mirroring Python's
`body['k']` lookup; a storage failure during a write is modelled by a
`storageError` fault.
-/

/-- An assumption profile record as populated by `AssumptionProfileAPI.post`:
four macro inputs plus the four derived-or-supplied parameters. -/
structure AssumptionProfile where
  name : String
  gdp_growth : ℚ
  unemployment_rate : ℚ
  national_home_price_index_growth : ℚ
  high_yield_spread : ℚ
  constant_default_rate : ℚ
  constant_prepayment_rate : ℚ
  recovery : ℚ
  lag : ℚ
  deriving DecidableEq

/-- `setattr(new_assumption_profile, key, value)` restricted to the four
derived-assumption keys iterated by the loop in `AssumptionProfileAPI.post`
(line 348 of views.py). Any other key leaves the record unchanged. -/
def setAttr (p : AssumptionProfile) (key : String) (value : ℚ) : AssumptionProfile :=
  if key = "constant_default_rate" then { p with constant_default_rate := value }
  else if key = "constant_prepayment_rate" then { p with constant_prepayment_rate := value }
  else if key = "recovery" then { p with recovery := value }
  else if key = "lag" then { p with lag := value }
  else p

/-- One iteration of the loop over `default_assumptions.items()` in
`AssumptionProfileAPI.post` (views.py lines 346-362): a value other than
-100 is stored via `setattr`; the sentinel -100 triggers the formula for
the matching key, and for `lag` simply stores the value. -/
def applyAssumption (gdp_growth unemployment_rate national_home_price_index high_yield_spread : ℚ)
    (p : AssumptionProfile) (key : String) (value : ℚ) : AssumptionProfile :=
  if value ≠ -100 then
    setAttr p key value
  else
    let p := if key = "constant_default_rate" then
      let cdr := (gdp_growth * (-1) + 6.5) + (unemployment_rate * 1.2 - 5.5)
      { p with constant_default_rate := cdr }
    else p
    let p := if key = "constant_prepayment_rate" then
      let cpr := high_yield_spread * (-10) / 9 + 245 / 9
      { p with constant_prepayment_rate := cpr }
    else p
    let p := if key = "recovery" then
      let recovery := national_home_price_index * 2.5 + 50
      { p with recovery := recovery }
    else p
    let p := if key = "lag" then
      let lag := value
      { p with lag := lag }
    else p
    p

/-- The record built by `AssumptionProfileAPI.post`: macro inputs stored as
given, then the four derived assumptions resolved by iterating the
`default_assumptions` dict in its insertion order
(constant_default_rate, constant_prepayment_rate, recovery, lag).
The four derived fields start from a placeholder 0; every key of the dict
assigns its field on either branch, so the placeholders never survive. -/
def resolveAssumptionProfile (name : String)
    (gdp_growth unemployment_rate national_home_price_index high_yield_spread : ℚ)
    (cdrInput cprInput recoveryInput lagInput : ℚ) : AssumptionProfile :=
  let base : AssumptionProfile :=
    { name := name
      gdp_growth := gdp_growth
      unemployment_rate := unemployment_rate
      national_home_price_index_growth := national_home_price_index
      high_yield_spread := high_yield_spread
      constant_default_rate := 0
      constant_prepayment_rate := 0
      recovery := 0
      lag := 0 }
  let default_assumptions : List (String × ℚ) :=
    [("constant_default_rate", cdrInput),
     ("constant_prepayment_rate", cprInput),
     ("recovery", recoveryInput),
     ("lag", lagInput)]
  default_assumptions.foldl
    (fun p kv =>
      applyAssumption gdp_growth unemployment_rate national_home_price_index high_yield_spread
        p kv.1 kv.2)
    base

example :
    (resolveAssumptionProfile "X" 3.2 8.5 3.7 5.2 (-100) (-100) (-100) 128).constant_default_rate
      = 8 := by simp [resolveAssumptionProfile, applyAssumption, setAttr]; norm_num

example :
    (resolveAssumptionProfile "X" 3.2 8.5 3.7 5.2 (-100) (-100) (-100) 128).recovery
      = 59.25 := by simp [resolveAssumptionProfile, applyAssumption, setAttr]; norm_num

example :
    (resolveAssumptionProfile "X" 3.2 8.5 3.7 5.2 (-100) (-100) (-100) 128).lag
      = 128 := by simp [resolveAssumptionProfile, applyAssumption, setAttr]

/-- A risk profile record (risk_management.models.RiskProfile): system id
and name, as created by `RiskProfileAPI.post`. Timestamps are managed by
the store and carry no logic, so they are not modelled. -/
structure RiskProfile where
  id : Nat
  name : String
  deriving DecidableEq

/-- A risk factor record. The field `attr` models the source's `attribute`
field (`attribute` is reserved in Lean); `risk_profile_id` is the foreign
key set from `RiskProfile.objects.get(pk=risk_profile_id)`. -/
structure RiskFactor where
  id : Nat
  risk_profile_id : Nat
  attr : String
  changing_assumption : String
  percentage_change : ℚ
  deriving DecidableEq

/-- A risk conditional record: operator symbol and threshold, owned by a
risk factor. -/
structure RiskConditional where
  id : Nat
  risk_factor_id : Nat
  conditional : String
  value : ℚ
  deriving DecidableEq

/-- The record store: the database tables the views read and write, plus
the next system-assigned id per table. -/
structure Store where
  risk_profiles : List RiskProfile
  risk_factors : List RiskFactor
  risk_conditionals : List RiskConditional
  assumption_profiles : List AssumptionProfile
  nextProfileId : Nat
  nextFactorId : Nat
  nextConditionalId : Nat
  deriving DecidableEq

attribute [ext] Store

/-- A structured JsonResponse body carrying a status and a message. -/
inductive Response where
  | body (status message : String)
  deriving DecidableEq

/-- An unhandled fault escaping the request handler: a Python `KeyError`
from a missing payload key, or a storage-layer error raised by a save. -/
inductive Fault where
  | keyError (key : String)
  | storageError
  deriving DecidableEq

/-- `RiskProfile.objects.filter(pk=risk_profile_id).exists()`. -/
def profileExists (st : Store) (risk_profile_id : Nat) : Bool :=
  !(st.risk_profiles.filter (fun p => p.id == risk_profile_id)).isEmpty

/-- One iteration of the conditional-creation loop in `RiskFactorAPI.post`
(views.py lines 171-175): builds a RiskConditional bound to the factor,
copies the item's operator and value verbatim, and saves it. -/
def saveConditional (s : Store) (fid : Nat) (item : String × ℚ) : Store :=
  { s with
      risk_conditionals :=
        s.risk_conditionals ++ [⟨s.nextConditionalId, fid, item.1, item.2⟩],
      nextConditionalId := s.nextConditionalId + 1 }

/-- The conditional-creation loop, with each save an independent fallible
write: `condSaveFails i` says whether the i-th conditional save raises a
storage error. A failing save aborts the loop (Python exception
propagation), leaving every earlier save committed: the Boolean in the
result records whether the loop aborted. -/
def condSaveLoop (condSaveFails : Nat → Bool) (fid : Nat) :
    List (String × ℚ) → Nat → Store → Store × Bool
  | [], _, s => (s, false)
  | item :: rest, i, s =>
    if condSaveFails i then (s, true)
    else condSaveLoop condSaveFails fid rest (i + 1) (saveConditional s fid item)

/-- The JSON payload of `RiskFactorAPI.post`; a `none` field is a missing
key. Conditional-list items are (conditional, value) pairs. -/
structure RFBody where
  risk_profile_id : Option Nat
  risk_factor_attribute : Option String
  changing_assumption : Option String
  percentage_change : Option ℚ
  conditionals_list : Option (List (String × ℚ))
  deriving DecidableEq

/-- `RiskFactorAPI.post` (views.py lines 128-181), parameterised by which
conditional saves fail. The result pairs the final persisted store with
either an unhandled fault or the JsonResponse. Mirrors the source order:
the explicit `risk_profile_id in body.keys()` check, the profile existence
check, field accesses, the factor save, the `conditionals_list` access,
then the conditional-creation loop. -/
def riskFactorPostRun (condSaveFails : Nat → Bool) (st : Store) (body : RFBody) :
    Store × Except Fault Response :=
  match body.risk_profile_id with
  | none => (st, .ok (.body "FAIL" "Risk Profile ID must be provided."))
  | some risk_profile_id =>
    if profileExists st risk_profile_id then
      match body.risk_factor_attribute with
      | none => (st, .error (.keyError "risk_factor_attribute"))
      | some attr =>
        match body.changing_assumption with
        | none => (st, .error (.keyError "changing_assumption"))
        | some changing_assumption =>
          match body.percentage_change with
          | none => (st, .error (.keyError "percentage_change"))
          | some percentage_change =>
            let new_risk_factor : RiskFactor :=
              ⟨st.nextFactorId, risk_profile_id, attr, changing_assumption, percentage_change⟩
            let st1 : Store :=
              { st with
                  risk_factors := st.risk_factors ++ [new_risk_factor],
                  nextFactorId := st.nextFactorId + 1 }
            match body.conditionals_list with
            | none => (st1, .error (.keyError "conditionals_list"))
            | some conditionals_list =>
              let r := condSaveLoop condSaveFails new_risk_factor.id conditionals_list 0 st1
              if r.2 then (r.1, .error .storageError)
              else (r.1, .ok (.body "PASS" "Risk Factor added."))
    else (st, .ok (.body "FAIL" "Risk Profile provided does not exist."))

/-- `RiskFactorAPI.post` on a healthy store where no save fails. -/
def riskFactorPost (st : Store) (body : RFBody) : Store × Except Fault Response :=
  riskFactorPostRun (fun _ => false) st body

/-- The JSON payload of `RiskProfileAPI.post`. -/
structure RPBody where
  name : Option String
  deriving DecidableEq

/-- `RiskProfileAPI.post` (views.py lines 53-74): `body['name']` faults
with KeyError when missing; otherwise the profile is created and saved
with no validation of the name, and an OK body returned. -/
def riskProfilePost (st : Store) (body : RPBody) : Store × Except Fault Response :=
  match body.name with
  | none => (st, .error (.keyError "name"))
  | some name =>
    ({ st with
        risk_profiles := st.risk_profiles ++ [⟨st.nextProfileId, name⟩],
        nextProfileId := st.nextProfileId + 1 },
     .ok (.body "OK" "Risk Profile Created!!"))

/-- The result of `RiskFactorAPI.get`: either a list of risk factors or a
structured failure body. -/
inductive GetResponse where
  | risk_factors (l : List RiskFactor)
  | failBody (status message : String)
  deriving DecidableEq

/-- `RiskFactorAPI.get` (views.py lines 84-126): checks that the profile
exists, then returns the factors matching `risk_profile_id` and the extra
equality filters from the query string, abstracted as a predicate. -/
def riskFactorGet (st : Store) (risk_profile_id : Nat) (extra : RiskFactor → Bool) : GetResponse :=
  if profileExists st risk_profile_id then
    GetResponse.risk_factors
      (st.risk_factors.filter (fun f => f.risk_profile_id == risk_profile_id && extra f))
  else
    GetResponse.failBody "FAIL" "Risk Profile provided does not exist."

/-- The JSON payload of `AssumptionProfileAPI.post`; the home-price input
key is `national_home_price_index`, as the source reads it. -/
structure APBody where
  name : Option String
  gdp_growth : Option ℚ
  unemployment_rate : Option ℚ
  national_home_price_index : Option ℚ
  high_yield_spread : Option ℚ
  constant_default_rate : Option ℚ
  constant_prepayment_rate : Option ℚ
  recovery : Option ℚ
  lag : Option ℚ
  deriving DecidableEq

/-- `AssumptionProfileAPI.post` (views.py lines 284-365): accesses the
payload keys in source order (faulting with KeyError on the first missing
one), resolves the four derived assumptions, saves the profile and
returns an OK body. -/
def assumptionProfilePost (st : Store) (body : APBody) : Store × Except Fault Response :=
  match body.name with
  | none => (st, .error (.keyError "name"))
  | some name =>
  match body.gdp_growth with
  | none => (st, .error (.keyError "gdp_growth"))
  | some gdp_growth =>
  match body.unemployment_rate with
  | none => (st, .error (.keyError "unemployment_rate"))
  | some unemployment_rate =>
  match body.national_home_price_index with
  | none => (st, .error (.keyError "national_home_price_index"))
  | some national_home_price_index =>
  match body.high_yield_spread with
  | none => (st, .error (.keyError "high_yield_spread"))
  | some high_yield_spread =>
  match body.constant_default_rate with
  | none => (st, .error (.keyError "constant_default_rate"))
  | some constant_default_rate =>
  match body.constant_prepayment_rate with
  | none => (st, .error (.keyError "constant_prepayment_rate"))
  | some constant_prepayment_rate =>
  match body.recovery with
  | none => (st, .error (.keyError "recovery"))
  | some recovery =>
  match body.lag with
  | none => (st, .error (.keyError "lag"))
  | some lag =>
    ({ st with
        assumption_profiles := st.assumption_profiles ++
          [resolveAssumptionProfile name gdp_growth unemployment_rate
            national_home_price_index high_yield_spread
            constant_default_rate constant_prepayment_rate recovery lag] },
     .ok (.body "OK" "Assumption Profile Created!!"))

/-- The RiskConditional records the loop creates for the items `l`,
starting from conditional id `n0`, all bound to factor `fid`. -/
def condRecords (fid n0 : Nat) : List (String × ℚ) → List RiskConditional
  | [] => []
  | item :: rest => ⟨n0, fid, item.1, item.2⟩ :: condRecords fid (n0 + 1) rest

/-- The store after saving one conditional per item of `l`, bound to `fid`. -/
def appendConds (s : Store) (fid : Nat) (l : List (String × ℚ)) : Store :=
  { s with
      risk_conditionals := s.risk_conditionals ++ condRecords fid s.nextConditionalId l,
      nextConditionalId := s.nextConditionalId + l.length }

theorem appendConds_nil (s : Store) (fid : Nat) : appendConds s fid [] = s := by
  simp [appendConds, condRecords]

theorem appendConds_cons (s : Store) (fid : Nat) (item : String × ℚ) (l : List (String × ℚ)) :
    appendConds s fid (item :: l) = appendConds (saveConditional s fid item) fid l := by
  apply Store.ext <;> simp [appendConds, condRecords, saveConditional]
  omega

theorem condRecords_pairs (fid : Nat) (l : List (String × ℚ)) :
    ∀ n0, (condRecords fid n0 l).map (fun c => (c.conditional, c.value)) = l := by
  induction l with
  | nil => intro n0; simp [condRecords]
  | cons item rest ih => intro n0; simp [condRecords, ih]

theorem condRecords_bound (fid : Nat) (l : List (String × ℚ)) :
    ∀ n0 c, c ∈ condRecords fid n0 l → c.risk_factor_id = fid := by
  induction l with
  | nil => intro n0 c hc; simp [condRecords] at hc
  | cons item rest ih =>
    intro n0 c hc
    simp only [condRecords, List.mem_cons] at hc
    rcases hc with rfl | hc
    · rfl
    · exact ih _ _ hc

theorem condRecords_ops (fid : Nat) (l : List (String × ℚ)) :
    ∀ n0, (condRecords fid n0 l).map RiskConditional.conditional = l.map Prod.fst := by
  induction l with
  | nil => intro n0; simp [condRecords]
  | cons item rest ih => intro n0; simp [condRecords, ih]

theorem condRecords_length (fid : Nat) (l : List (String × ℚ)) :
    ∀ n0, (condRecords fid n0 l).length = l.length := by
  induction l with
  | nil => intro n0; simp [condRecords]
  | cons item rest ih => intro n0; simp [condRecords, ih]

/-- A run of the conditional-creation loop where no save fails commits one
conditional per item and does not abort. -/
theorem condSaveLoop_ok (fid : Nat) (l : List (String × ℚ)) :
    ∀ (i : Nat) (s : Store),
      condSaveLoop (fun _ => false) fid l i s = (appendConds s fid l, false) := by
  induction l with
  | nil => intro i s; simp [condSaveLoop, appendConds_nil]
  | cons item rest ih =>
    intro i s
    simp [condSaveLoop, ih, appendConds_cons]

/-- A run of the conditional-creation loop whose save at offset `j` from
the start index fails commits exactly the first `j` conditionals and
aborts: earlier saves are independent committed writes, nothing is rolled
back. -/
theorem condSaveLoop_fail (fid : Nat) (l : List (String × ℚ)) :
    ∀ (f : Nat → Bool) (j i : Nat) (s : Store),
      (∀ n, f n = (n == i + j)) → j < l.length →
      condSaveLoop f fid l i s = (appendConds s fid (l.take j), true) := by
  induction l with
  | nil => intro f j i s hf hj; simp at hj
  | cons item rest ih =>
    intro f j i s hf hj
    cases j with
    | zero =>
      have hfi : f i = true := by rw [hf]; simp
      simp [condSaveLoop, hfi, appendConds_nil]
    | succ j' =>
      have hfi : f i = false := by rw [hf]; simp
      have hf' : ∀ n, f n = (n == (i + 1) + j') := by
        intro n
        rw [hf]
        have : i + (j' + 1) = (i + 1) + j' := by omega
        rw [this]
      have hj' : j' < rest.length := by simpa using Nat.lt_of_succ_lt_succ hj
      simp only [condSaveLoop, hfi, Bool.false_eq_true, if_false, List.take_succ_cons,
        appendConds_cons]
      exact ih f j' (i + 1) (saveConditional s fid item) hf' hj'

/-- The empty record store. -/
def emptyStore : Store := ⟨[], [], [], [], 1, 1, 1⟩

/-- A store holding exactly one risk profile, with id 1. -/
def oneProfileStore : Store := ⟨[⟨1, "Zipcodes in NJ"⟩], [], [], [], 2, 1, 1⟩

/-- C4: when the supplied risk_profile_id does not resolve to an existing
RiskProfile, `RiskFactorAPI.post` leaves the store unchanged (no
RiskFactor and no RiskConditional is created) and reports the referential
failure body, whatever the rest of the payload holds. -/
theorem riskFactorPost_missing_profile_no_mutation (st : Store) (body : RFBody)
    (rpid : Nat) (hid : body.risk_profile_id = some rpid)
    (hex : profileExists st rpid = false) :
    riskFactorPost st body
      = (st, .ok (.body "FAIL" "Risk Profile provided does not exist.")) := by
  simp [riskFactorPost, riskFactorPostRun, hid, hex]

/-- Witness for C4: on the empty store, profile id 1 does not exist and
the post reports the referential failure with the store unchanged. -/
theorem riskFactorPost_missing_profile_no_mutation_witness :
    (RFBody.mk (some 1) none none none none).risk_profile_id = some 1
  ∧ profileExists emptyStore 1 = false
  ∧ riskFactorPost emptyStore (RFBody.mk (some 1) none none none none)
      = (emptyStore, .ok (.body "FAIL" "Risk Profile provided does not exist.")) :=
  ⟨rfl, rfl,
    riskFactorPost_missing_profile_no_mutation emptyStore
      (RFBody.mk (some 1) none none none none) 1 rfl rfl⟩

/-- C5: on an existing profile, a successful `RiskFactorAPI.post` with N
conditional items persists exactly one new RiskFactor bound to that
profile and exactly N RiskConditional records bound to the new factor,
preserving each (conditional, value) pair in input order, and returns the
PASS body. -/
theorem riskFactorPost_success (st : Store) (rpid : Nat) (a ca : String) (pc : ℚ)
    (cs : List (String × ℚ)) (hex : profileExists st rpid = true) :
    riskFactorPost st ⟨some rpid, some a, some ca, some pc, some cs⟩
      = (appendConds
          { st with
              risk_factors := st.risk_factors ++ [⟨st.nextFactorId, rpid, a, ca, pc⟩],
              nextFactorId := st.nextFactorId + 1 }
          st.nextFactorId cs,
         .ok (.body "PASS" "Risk Factor added."))
  ∧ (riskFactorPost st ⟨some rpid, some a, some ca, some pc, some cs⟩).1.risk_factors
      = st.risk_factors ++ [⟨st.nextFactorId, rpid, a, ca, pc⟩]
  ∧ (riskFactorPost st ⟨some rpid, some a, some ca, some pc, some cs⟩).1.risk_conditionals
      = st.risk_conditionals ++ condRecords st.nextFactorId st.nextConditionalId cs
  ∧ (condRecords st.nextFactorId st.nextConditionalId cs).length = cs.length
  ∧ (condRecords st.nextFactorId st.nextConditionalId cs).map (fun c => (c.conditional, c.value))
      = cs
  ∧ ∀ c ∈ condRecords st.nextFactorId st.nextConditionalId cs,
      c.risk_factor_id = st.nextFactorId := by
  have key : riskFactorPost st ⟨some rpid, some a, some ca, some pc, some cs⟩
      = (appendConds
          { st with
              risk_factors := st.risk_factors ++ [⟨st.nextFactorId, rpid, a, ca, pc⟩],
              nextFactorId := st.nextFactorId + 1 }
          st.nextFactorId cs,
         .ok (.body "PASS" "Risk Factor added.")) := by
    simp [riskFactorPost, riskFactorPostRun, hex, condSaveLoop_ok]
  refine ⟨key, ?_, ?_, condRecords_length _ _ _, condRecords_pairs _ _ _,
    fun c hc => condRecords_bound _ _ _ c hc⟩
  · rw [key]; simp [appendConds]
  · rw [key]; simp [appendConds]

/-- Witness for C5: the §8 scenario — on the one-profile store, a factor
with two conditionals is created; the two stored pairs are exactly the
supplied ones. -/
theorem riskFactorPost_success_witness :
    profileExists oneProfileStore 1 = true
  ∧ (riskFactorPost oneProfileStore
        ⟨some 1, some "FICO", some "CDR", some (-5), some [(">", 450), ("<", 550)]⟩).1.risk_conditionals
      = oneProfileStore.risk_conditionals
          ++ condRecords oneProfileStore.nextFactorId oneProfileStore.nextConditionalId
              [(">", 450), ("<", 550)] :=
  ⟨rfl,
    (riskFactorPost_success oneProfileStore 1 "FICO" "CDR" (-5)
      [(">", 450), ("<", 550)] rfl).2.2.1⟩

/-- C1: with the sentinel -100 supplied for a derived parameter,
`resolveAssumptionProfile` (AssumptionProfileAPI.post) stores
CDR = (g * -1 + 6.5) + (u * 1.2 - 5.5), CPR = y * -10/9 + 245/9 and
Recovery = h * 2.5 + 50 respectively; each formula mentions only its own
macro inputs, and the universal quantification over every other input and
sentinel state expresses the claimed independence. -/
theorem resolveAssumptionProfile_sentinel_formulas (name : String)
    (g u h y cdrIn cprIn recIn lagIn : ℚ) :
    (resolveAssumptionProfile name g u h y (-100) cprIn recIn lagIn).constant_default_rate
        = (g * (-1) + 6.5) + (u * 1.2 - 5.5)
  ∧ (resolveAssumptionProfile name g u h y cdrIn (-100) recIn lagIn).constant_prepayment_rate
        = y * (-10) / 9 + 245 / 9
  ∧ (resolveAssumptionProfile name g u h y cdrIn cprIn (-100) lagIn).recovery
        = h * 2.5 + 50 := by
  refine ⟨?_, ?_, ?_⟩ <;>
  · by_cases h1 : cdrIn = -100 <;> by_cases h2 : cprIn = -100 <;>
      by_cases h3 : recIn = -100 <;> by_cases h4 : lagIn = -100 <;>
      simp [resolveAssumptionProfile, applyAssumption, setAttr, h1, h2, h3, h4]

/-- C2: a supplied derived-parameter value other than the sentinel -100 is
stored on the created AssumptionProfile exactly as supplied, for every
value of the four macro inputs and of the other parameters. -/
theorem resolveAssumptionProfile_supplied_verbatim (name : String)
    (g u h y cdrIn cprIn recIn lagIn v : ℚ) (hv : v ≠ -100) :
    (resolveAssumptionProfile name g u h y v cprIn recIn lagIn).constant_default_rate = v
  ∧ (resolveAssumptionProfile name g u h y cdrIn v recIn lagIn).constant_prepayment_rate = v
  ∧ (resolveAssumptionProfile name g u h y cdrIn cprIn v lagIn).recovery = v := by
  refine ⟨?_, ?_, ?_⟩ <;>
  · by_cases h1 : cdrIn = -100 <;> by_cases h2 : cprIn = -100 <;>
      by_cases h3 : recIn = -100 <;> by_cases h4 : lagIn = -100 <;>
      simp [resolveAssumptionProfile, applyAssumption, setAttr, h1, h2, h3, h4, hv]

/-- Witness for C2 at a concrete input: v = 7 is not the sentinel and is
stored verbatim as the constant default rate. -/
theorem resolveAssumptionProfile_supplied_verbatim_witness :
    (7 : ℚ) ≠ -100 ∧ (resolveAssumptionProfile "N" 1 2 3 4 7 6 9 10).constant_default_rate = 7 :=
  ⟨by norm_num, (resolveAssumptionProfile_supplied_verbatim "N" 1 2 3 4 5 6 9 10 7 (by norm_num)).1⟩

/-- C3: the lag parameter is always stored exactly as supplied, for every
lag input including the sentinel -100: no computation path exists for lag. -/
theorem resolveAssumptionProfile_lag_verbatim (name : String)
    (g u h y cdrIn cprIn recIn lagIn : ℚ) :
    (resolveAssumptionProfile name g u h y cdrIn cprIn recIn lagIn).lag = lagIn := by
  by_cases h1 : cdrIn = -100 <;> by_cases h2 : cprIn = -100 <;>
    by_cases h3 : recIn = -100 <;> by_cases h4 : lagIn = -100 <;>
    simp [resolveAssumptionProfile, applyAssumption, setAttr, h1, h2, h3, h4]

/-- C6: `RiskFactorAPI.post` is not atomic across its writes. When the
k-th conditional save (1 ≤ k ≤ N) raises a storage error after the factor
has been saved, the request aborts with the unhandled fault and the store
is left holding the new RiskFactor plus exactly the k-1 conditionals
written before the failure: neither the factor nor the earlier
conditionals are rolled back. -/
theorem riskFactorPost_partial_failure (st : Store) (rpid : Nat) (a ca : String) (pc : ℚ)
    (cs : List (String × ℚ)) (k : Nat)
    (hex : profileExists st rpid = true) (hk1 : 1 ≤ k) (hk2 : k ≤ cs.length) :
    riskFactorPostRun (fun i => i == k - 1) st ⟨some rpid, some a, some ca, some pc, some cs⟩
      = (appendConds
          { st with
              risk_factors := st.risk_factors ++ [⟨st.nextFactorId, rpid, a, ca, pc⟩],
              nextFactorId := st.nextFactorId + 1 }
          st.nextFactorId (cs.take (k - 1)),
         .error .storageError)
  ∧ (riskFactorPostRun (fun i => i == k - 1) st
        ⟨some rpid, some a, some ca, some pc, some cs⟩).1.risk_factors
      = st.risk_factors ++ [⟨st.nextFactorId, rpid, a, ca, pc⟩]
  ∧ (riskFactorPostRun (fun i => i == k - 1) st
        ⟨some rpid, some a, some ca, some pc, some cs⟩).1.risk_conditionals
      = st.risk_conditionals
          ++ condRecords st.nextFactorId st.nextConditionalId (cs.take (k - 1))
  ∧ (condRecords st.nextFactorId st.nextConditionalId (cs.take (k - 1))).length = k - 1 := by
  have hloop := condSaveLoop_fail st.nextFactorId cs (fun i => i == k - 1) (k - 1) 0
    { st with
        risk_factors := st.risk_factors ++ [⟨st.nextFactorId, rpid, a, ca, pc⟩],
        nextFactorId := st.nextFactorId + 1 }
    (by intro n; simp) (by omega)
  have key : riskFactorPostRun (fun i => i == k - 1) st
      ⟨some rpid, some a, some ca, some pc, some cs⟩
      = (appendConds
          { st with
              risk_factors := st.risk_factors ++ [⟨st.nextFactorId, rpid, a, ca, pc⟩],
              nextFactorId := st.nextFactorId + 1 }
          st.nextFactorId (cs.take (k - 1)),
         .error .storageError) := by
    simp [riskFactorPostRun, hex, hloop]
  refine ⟨key, ?_, ?_, ?_⟩
  · rw [key]; simp [appendConds]
  · rw [key]; simp [appendConds]
  · rw [condRecords_length]
    simp [List.length_take]
    omega

/-- Witness for C6: on the one-profile store, with two conditionals and
the second save failing (k = 2), exactly the factor and the first
conditional remain: the prefix has length k - 1 = 1. -/
theorem riskFactorPost_partial_failure_witness :
    profileExists oneProfileStore 1 = true ∧ 1 ≤ 2 ∧ 2 ≤ [(">", (450 : ℚ)), ("<", 550)].length
  ∧ (condRecords oneProfileStore.nextFactorId oneProfileStore.nextConditionalId
      ([(">", (450 : ℚ)), ("<", 550)].take (2 - 1))).length = 2 - 1 :=
  ⟨rfl, by decide, by decide,
    (riskFactorPost_partial_failure oneProfileStore 1 "FICO" "CDR" (-5)
      [(">", 450), ("<", 550)] 2 rfl (by decide) (by decide)).2.2.2⟩

/-- C7: `RiskFactorAPI.get` with a risk_profile_id that does not resolve
returns the structured FAIL body and never a success list of factors;
with an existing profile it returns exactly the factors of that profile
narrowed by the extra filters, each belonging to the profile. -/
theorem riskFactorGet_profile_check (st : Store) (rpid : Nat) (extra : RiskFactor → Bool) :
    (profileExists st rpid = false →
      riskFactorGet st rpid extra
          = GetResponse.failBody "FAIL" "Risk Profile provided does not exist."
      ∧ ∀ l, riskFactorGet st rpid extra ≠ GetResponse.risk_factors l)
  ∧ (profileExists st rpid = true →
      riskFactorGet st rpid extra
          = GetResponse.risk_factors
              (st.risk_factors.filter (fun f => f.risk_profile_id == rpid && extra f))
      ∧ ∀ f ∈ st.risk_factors.filter (fun f => f.risk_profile_id == rpid && extra f),
          f.risk_profile_id = rpid ∧ extra f = true) := by
  constructor
  · intro hex
    refine ⟨by simp [riskFactorGet, hex], fun l => by simp [riskFactorGet, hex]⟩
  · intro hex
    refine ⟨by simp [riskFactorGet, hex], fun f hf => ?_⟩
    rw [List.mem_filter] at hf
    have h2 := hf.2
    simp only [Bool.and_eq_true, beq_iff_eq] at h2
    exact h2

/-- Witness for C7: on the empty store the get for profile 1 fails with
the structured body; on the one-profile store it succeeds with the
(empty) factor list for profile 1. -/
theorem riskFactorGet_profile_check_witness :
    riskFactorGet emptyStore 1 (fun _ => true)
        = GetResponse.failBody "FAIL" "Risk Profile provided does not exist."
  ∧ riskFactorGet oneProfileStore 1 (fun _ => true)
        = GetResponse.risk_factors
            (oneProfileStore.risk_factors.filter
              (fun f => f.risk_profile_id == 1 && (fun _ => true) f)) :=
  ⟨((riskFactorGet_profile_check emptyStore 1 (fun _ => true)).1 rfl).1,
   ((riskFactorGet_profile_check oneProfileStore 1 (fun _ => true)).2 rfl).1⟩

/-- Counterexample to C8: a createRiskFactor payload missing the required
risk_profile_id field does NOT fail at input-access time — the source
explicitly tests `risk_profile_id in body.keys()` and answers with the
structured status-and-message body, contradicting the claim that no
operation detects a missing required field and reports it explicitly. -/
theorem missing_field_structured_error_counterexample :
    riskFactorPost emptyStore (RFBody.mk none none none none none)
      = (emptyStore, .ok (.body "FAIL" "Risk Profile ID must be provided.")) := rfl

/-- C8 amended: every core create operation lets a missing required field
fail at input-access time as an unhandled KeyError fault — with the single
exception of createRiskFactor's risk_profile_id, which the source checks
explicitly and answers with a structured FAIL body. Field accesses follow
source order, so each conjunct assumes the earlier fields are present;
notably a missing conditionals_list faults only after the factor has
already been saved. -/
theorem missing_required_field_behaviour (st : Store) :
    (∀ body : RPBody, body.name = none →
        riskProfilePost st body = (st, .error (.keyError "name")))
  ∧ (∀ body : RFBody, body.risk_profile_id = none →
        riskFactorPost st body = (st, .ok (.body "FAIL" "Risk Profile ID must be provided.")))
  ∧ (∀ body : RFBody, ∀ rpid : Nat,
        body.risk_profile_id = some rpid → profileExists st rpid = true →
        body.risk_factor_attribute = none →
        riskFactorPost st body = (st, .error (.keyError "risk_factor_attribute")))
  ∧ (∀ body : RFBody, ∀ (rpid : Nat) (a : String),
        body.risk_profile_id = some rpid → profileExists st rpid = true →
        body.risk_factor_attribute = some a → body.changing_assumption = none →
        riskFactorPost st body = (st, .error (.keyError "changing_assumption")))
  ∧ (∀ body : RFBody, ∀ (rpid : Nat) (a ca : String),
        body.risk_profile_id = some rpid → profileExists st rpid = true →
        body.risk_factor_attribute = some a → body.changing_assumption = some ca →
        body.percentage_change = none →
        riskFactorPost st body = (st, .error (.keyError "percentage_change")))
  ∧ (∀ body : RFBody, ∀ (rpid : Nat) (a ca : String) (pc : ℚ),
        body.risk_profile_id = some rpid → profileExists st rpid = true →
        body.risk_factor_attribute = some a → body.changing_assumption = some ca →
        body.percentage_change = some pc → body.conditionals_list = none →
        riskFactorPost st body
          = ({ st with
                risk_factors := st.risk_factors ++ [⟨st.nextFactorId, rpid, a, ca, pc⟩],
                nextFactorId := st.nextFactorId + 1 },
             .error (.keyError "conditionals_list")))
  ∧ (∀ body : APBody, body.name = none →
        assumptionProfilePost st body = (st, .error (.keyError "name")))
  ∧ (∀ body : APBody, ∀ n : String, body.name = some n → body.gdp_growth = none →
        assumptionProfilePost st body = (st, .error (.keyError "gdp_growth")))
  ∧ (∀ body : APBody, ∀ (n : String) (g : ℚ),
        body.name = some n → body.gdp_growth = some g → body.unemployment_rate = none →
        assumptionProfilePost st body = (st, .error (.keyError "unemployment_rate")))
  ∧ (∀ body : APBody, ∀ (n : String) (g u : ℚ),
        body.name = some n → body.gdp_growth = some g → body.unemployment_rate = some u →
        body.national_home_price_index = none →
        assumptionProfilePost st body = (st, .error (.keyError "national_home_price_index")))
  ∧ (∀ body : APBody, ∀ (n : String) (g u h : ℚ),
        body.name = some n → body.gdp_growth = some g → body.unemployment_rate = some u →
        body.national_home_price_index = some h → body.high_yield_spread = none →
        assumptionProfilePost st body = (st, .error (.keyError "high_yield_spread")))
  ∧ (∀ body : APBody, ∀ (n : String) (g u h y : ℚ),
        body.name = some n → body.gdp_growth = some g → body.unemployment_rate = some u →
        body.national_home_price_index = some h → body.high_yield_spread = some y →
        body.constant_default_rate = none →
        assumptionProfilePost st body = (st, .error (.keyError "constant_default_rate")))
  ∧ (∀ body : APBody, ∀ (n : String) (g u h y cdr : ℚ),
        body.name = some n → body.gdp_growth = some g → body.unemployment_rate = some u →
        body.national_home_price_index = some h → body.high_yield_spread = some y →
        body.constant_default_rate = some cdr → body.constant_prepayment_rate = none →
        assumptionProfilePost st body = (st, .error (.keyError "constant_prepayment_rate")))
  ∧ (∀ body : APBody, ∀ (n : String) (g u h y cdr cpr : ℚ),
        body.name = some n → body.gdp_growth = some g → body.unemployment_rate = some u →
        body.national_home_price_index = some h → body.high_yield_spread = some y →
        body.constant_default_rate = some cdr → body.constant_prepayment_rate = some cpr →
        body.recovery = none →
        assumptionProfilePost st body = (st, .error (.keyError "recovery")))
  ∧ (∀ body : APBody, ∀ (n : String) (g u h y cdr cpr rec : ℚ),
        body.name = some n → body.gdp_growth = some g → body.unemployment_rate = some u →
        body.national_home_price_index = some h → body.high_yield_spread = some y →
        body.constant_default_rate = some cdr → body.constant_prepayment_rate = some cpr →
        body.recovery = some rec → body.lag = none →
        assumptionProfilePost st body = (st, .error (.keyError "lag"))) := by
  refine ⟨?_, ?_, ?_, ?_, ?_, ?_, ?_, ?_, ?_, ?_, ?_, ?_, ?_, ?_, ?_⟩ <;>
  · intro body
    cases body
    intros
    simp_all [riskProfilePost, riskFactorPost, riskFactorPostRun, assumptionProfilePost]

/-- Witness for C8 amended: on the one-profile store, a createRiskFactor
payload with a valid profile id but no risk_factor_attribute faults with
the KeyError for that field. -/
theorem missing_required_field_behaviour_witness :
    (RFBody.mk (some 1) none none none none).risk_profile_id = some 1
  ∧ profileExists oneProfileStore 1 = true
  ∧ (RFBody.mk (some 1) none none none none).risk_factor_attribute = none
  ∧ riskFactorPost oneProfileStore (RFBody.mk (some 1) none none none none)
      = (oneProfileStore, .error (.keyError "risk_factor_attribute")) :=
  ⟨rfl, rfl, rfl,
    (missing_required_field_behaviour oneProfileStore).2.2.1
      (RFBody.mk (some 1) none none none none) 1 rfl rfl rfl⟩

/-- Counterexample to C9: `RiskFactorAPI.post` performs no validation of
the conditional operator — a request whose item carries the operator "!="
(outside the fixed comparison set) is persisted verbatim, so a
RiskConditional with an operator outside that set IS stored. -/
theorem conditional_operator_unvalidated_counterexample :
    (riskFactorPost oneProfileStore
        ⟨some 1, some "FICO", some "CDR", some (-5), some [("!=", 450)]⟩).1.risk_conditionals.map
      RiskConditional.conditional = ["!="]
  ∧ ([">", "<", ">=", "<=", "=="].contains "!=" = false) := ⟨rfl, rfl⟩

/-- C9 amended: every RiskConditional persisted by createRiskFactor
carries the operator string of its request item verbatim — the code
applies no validation, so exactly the supplied operators (whatever they
are) end up stored, in order. -/
theorem conditional_operator_stored_verbatim (st : Store) (rpid : Nat) (a ca : String) (pc : ℚ)
    (cs : List (String × ℚ)) (hex : profileExists st rpid = true) :
    (riskFactorPost st ⟨some rpid, some a, some ca, some pc, some cs⟩).1.risk_conditionals.map
        RiskConditional.conditional
      = st.risk_conditionals.map RiskConditional.conditional ++ cs.map Prod.fst := by
  have key : riskFactorPost st ⟨some rpid, some a, some ca, some pc, some cs⟩
      = (appendConds
          { st with
              risk_factors := st.risk_factors ++ [⟨st.nextFactorId, rpid, a, ca, pc⟩],
              nextFactorId := st.nextFactorId + 1 }
          st.nextFactorId cs,
         .ok (.body "PASS" "Risk Factor added.")) := by
    simp [riskFactorPost, riskFactorPostRun, hex, condSaveLoop_ok]
  rw [key]
  simp [appendConds, condRecords_ops]

/-- Witness for C9 amended: on the one-profile store, a request supplying
operators "<>" and ">=" stores exactly those operator strings. -/
theorem conditional_operator_stored_verbatim_witness :
    profileExists oneProfileStore 1 = true
  ∧ (riskFactorPost oneProfileStore
        ⟨some 1, some "state", some "recovery", some 2,
          some [("<>", 1), (">=", 2)]⟩).1.risk_conditionals.map RiskConditional.conditional
      = oneProfileStore.risk_conditionals.map RiskConditional.conditional
          ++ [("<>", (1 : ℚ)), (">=", 2)].map Prod.fst :=
  ⟨rfl,
    conditional_operator_stored_verbatim oneProfileStore 1 "state" "recovery" 2
      [("<>", 1), (">=", 2)] rfl⟩

/-- C10: `RiskProfileAPI.post` performs no validation on the supplied
name: every payload containing the name key — the empty string included —
persists a RiskProfile with exactly that name and returns the OK body;
only a payload with the key absent fails, as an unhandled KeyError. -/
theorem riskProfilePost_no_name_validation (st : Store) :
    (∀ name : String,
      riskProfilePost st ⟨some name⟩
        = ({ st with
              risk_profiles := st.risk_profiles ++ [⟨st.nextProfileId, name⟩],
              nextProfileId := st.nextProfileId + 1 },
           .ok (.body "OK" "Risk Profile Created!!")))
  ∧ riskProfilePost st ⟨some ""⟩
      = ({ st with
            risk_profiles := st.risk_profiles ++ [⟨st.nextProfileId, ""⟩],
            nextProfileId := st.nextProfileId + 1 },
         .ok (.body "OK" "Risk Profile Created!!"))
  ∧ riskProfilePost st ⟨none⟩ = (st, .error (.keyError "name")) :=
  ⟨fun _ => rfl, rfl, rfl⟩
